import Mathlib

/-!
Verification of the search-aggregation routine `search_web` from `src/app.py`
of the Conversational Knowledge Bot repository.

The Python function issues up to three sequential DuckDuckGo searches
(news, general web, and a conditional year-qualified news retry), merges the
results into one list of output elements (section headers plus formatted hit
lines), deduplicates hits by a content key shared across all three phases,
and returns the joined digest string (or a not-found / error message).

The embedding below is a direct functional translation: the mutable
`output` list and `seen_content` set of the Python code become an explicit
`List String × List String` state threaded through the three phases;
backend calls that may raise become `Except Unit` values; the `DDGS()`
construction that may raise (the only failure point outside the three
per-phase `try` blocks) becomes the `constructErr` field of the backend.
-/

set_option maxRecDepth 4000

/-- Python string slicing `s[:n]`: the first `n` characters of `s`. -/
def strTake (s : String) (n : Nat) : String := String.mk (s.data.take n)

/-- Does the character list `t` start with the pattern `p`? -/
def leadsWith : List Char → List Char → Bool
  | [], _ => true
  | _ :: _, [] => false
  | a :: as, b :: bs => a = b && leadsWith as bs

/-- Does the pattern `p` occur as a contiguous run inside `t`?
Direct model of Python's `p in t` on strings. -/
def containsSeq : List Char → List Char → Bool
  | p, [] => leadsWith p []
  | p, c :: rest => leadsWith p (c :: rest) || containsSeq p rest

/-- Python `pat in s` for strings. -/
def strContains (s pat : String) : Bool := containsSeq pat.data s.data

/-- One search result returned by the backend (`ddgs.news` / `ddgs.text`).
Fields mirror the dictionary keys read by `search_web` via `r.get(...)`;
string fields default to `""` in the source, so they are plain strings here,
while `date` keeps the `None`-vs-string distinction the code tests with
`if r.get('date')`. -/
structure Hit where
  title : String
  body : String
  href : String
  source : String
  date : Option String
deriving DecidableEq

/-- `content_key = body[:100] if body else title` (src/app.py lines 142, 158, 176). -/
def dedupKey (h : Hit) : String :=
  if h.body = "" then h.title else strTake h.body 100

/-- `date = r.get('date', '')[:10] if r.get('date') else ''` (src/app.py lines 140, 175). -/
def dateStr (h : Hit) : String :=
  match h.date with
  | some d => if d = "" then "" else strTake d 10
  | none => ""

/-- News hit line: `f"[{date}] ({source}) {title}\n{body}"` (line 145). -/
def formatNews (h : Hit) : String :=
  "[" ++ dateStr h ++ "] (" ++ h.source ++ ") " ++ h.title ++ "\n" ++ h.body

/-- Web hit line: `f"{title}\n{body}\nSource: {href}"` (line 161). -/
def formatWeb (h : Hit) : String :=
  h.title ++ "\n" ++ h.body ++ "\nSource: " ++ h.href

/-- Year-qualified hit line: `f"[{date}] {title}\n{body}"` (line 179). -/
def formatYear (h : Hit) : String :=
  "[" ++ dateStr h ++ "] " ++ h.title ++ "\n" ++ h.body

/-- The pluggable search backend (`DDGS`).  `news` and `text` model
`ddgs.news(query, max_results=n)` and `ddgs.text(query, max_results=n)`;
an `Except.error ()` models the call raising.  `constructErr` models
`DDGS()` itself raising with the given exception description, which is the
failure point inside the outer `try` but outside the three per-phase
`try` blocks. -/
structure Backend where
  constructErr : Option String
  news : String → Nat → Except Unit (List Hit)
  text : String → Nat → Except Unit (List Hit)

/-- The per-phase dedup loop of `search_web`: for each hit in backend order,
if its key is unseen, record the key and append the formatted line to the
output (src/app.py lines 137-145, 154-161, 172-179).  State is
`(output, seen_content)`. -/
def phaseLoop (fmt : Hit → String) : List Hit → List String × List String → List String × List String
  | [], st => st
  | h :: rest, (out, seen) =>
    if dedupKey h ∈ seen then phaseLoop fmt rest (out, seen)
    else phaseLoop fmt rest (out ++ [fmt h], dedupKey h :: seen)

/-- Header appended before the news section (line 136). -/
def newsHeader : String := "=== RECENT NEWS ==="

/-- Header appended before the web section (line 153); it carries a leading
newline in the source. -/
def webHeader : String := "\n=== WEB RESULTS ==="

/-- Header appended before the year-qualified section (line 171); it carries
a leading newline in the source. -/
def yearHeader (y : Nat) : String := "\n=== " ++ toString y ++ " SPECIFIC RESULTS ==="

/-- State `(output, seen_content)` after phase 1, the news search
(src/app.py lines 133-147): on success with a non-empty result list the
header is appended and the hits are processed; a raised exception or an
empty list leaves the state untouched. -/
def newsState (b : Backend) (q : String) : List String × List String :=
  match b.news q 5 with
  | Except.error _ => ([], [])
  | Except.ok rs =>
    if rs = [] then ([], [])
    else phaseLoop formatNews rs ([newsHeader], [])

/-- State after phase 2, the web search (src/app.py lines 150-163). -/
def webState (b : Backend) (q : String) : List String × List String :=
  match b.text q 5 with
  | Except.error _ => newsState b q
  | Except.ok rs =>
    if rs = [] then newsState b q
    else phaseLoop formatWeb rs ((newsState b q).1 ++ [webHeader], (newsState b q).2)

/-- The query of the year-qualified retry: `f"{query} {CURRENT_YEAR}"` (line 168). -/
def yearQuery (q : String) (y : Nat) : String := q ++ " " ++ toString y

/-- The trigger of phase 3:
`not any(str(CURRENT_YEAR) in str(r) for r in output)` (line 166). -/
def yearTriggered (b : Backend) (q : String) (y : Nat) : Bool :=
  !((webState b q).1.any (fun r => strContains r (toString y)))

/-- State after the conditional phase 3, the year-qualified news search
(src/app.py lines 166-181). -/
def finalState (b : Backend) (q : String) (y : Nat) : List String × List String :=
  if yearTriggered b q y then
    match b.news (yearQuery q y) 3 with
    | Except.error _ => webState b q
    | Except.ok rs =>
      if rs = [] then webState b q
      else phaseLoop formatYear rs ((webState b q).1 ++ [yearHeader y], (webState b q).2)
  else webState b q

/-- Python `sep.join(l)`. -/
def joinSep (sep : String) : List String → String
  | [] => ""
  | [x] => x
  | x :: y :: xs => x ++ sep ++ joinSep sep (y :: xs)

/-- The fixed not-found message (src/app.py line 184). -/
def notFoundMsg (q : String) : String :=
  "No search results found for \x27" ++ q ++ "\x27. Try rephrasing or adding more context."

/-- The fixed aggregator-level error message (src/app.py line 189). -/
def searchErrMsg (e : String) : String :=
  "Search error: " ++ e ++ ". Please try a different query."

/-- The full aggregator `search_web(query)` of src/app.py lines 122-189,
with the current year passed explicitly (the source reads the module
constant `CURRENT_YEAR`).  It is a total function: every backend behaviour,
including every call raising, yields a returned string, which models the
"always returns a string, never raises" tool contract. -/
def search_web (b : Backend) (q : String) (y : Nat) : String :=
  match b.constructErr with
  | some e => searchErrMsg e
  | none =>
    if (finalState b q y).1 = [] then notFoundMsg q
    else joinSep "\n\n" (finalState b q y).1

/-- A backend call issued by `search_web`, used to record which searches a
run performs. -/
inductive Call where
  | news : String → Nat → Call
  | text : String → Nat → Call
deriving DecidableEq

/-- The backend calls `search_web` makes, in order, mirroring its control
flow: none when `DDGS()` raises; otherwise the news and web calls always,
and the year-qualified news call exactly when the trigger condition of
line 166 holds. -/
def searchCalls (b : Backend) (q : String) (y : Nat) : List Call :=
  match b.constructErr with
  | some _ => []
  | none =>
    [Call.news q 5, Call.text q 5] ++
      (if yearTriggered b q y then [Call.news (yearQuery q y) 3] else [])

/-! ### Abstraction layer: raw hit lists, survivors, and section elements -/

/-- The hit list processed by the news phase: the backend result on success,
nothing when the call raised. -/
def rawNews (b : Backend) (q : String) : List Hit :=
  match b.news q 5 with
  | Except.ok rs => rs
  | Except.error _ => []

/-- The hit list processed by the web phase. -/
def rawWeb (b : Backend) (q : String) : List Hit :=
  match b.text q 5 with
  | Except.ok rs => rs
  | Except.error _ => []

/-- The hit list the year-qualified phase would process. -/
def rawYear (b : Backend) (q : String) (y : Nat) : List Hit :=
  match b.news (yearQuery q y) 3 with
  | Except.ok rs => rs
  | Except.error _ => []

/-- The hits that survive dedup filtering: keeps each hit whose key is not
in `seen` and was not the key of an earlier kept-or-skipped hit — i.e. the
first occurrence of each fresh key. -/
def firstOccur : List Hit → List String → List Hit
  | [], _ => []
  | h :: rest, seen =>
    if dedupKey h ∈ seen then firstOccur rest seen
    else h :: firstOccur rest (dedupKey h :: seen)

/-- The seen-key set after processing a hit list. -/
def seenAfter : List Hit → List String → List String
  | [], seen => seen
  | h :: rest, seen =>
    if dedupKey h ∈ seen then seenAfter rest seen
    else seenAfter rest (dedupKey h :: seen)

/-- Seen keys after the news phase. -/
def newsSeen (b : Backend) (q : String) : List String := seenAfter (rawNews b q) []

/-- News hits surviving dedup. -/
def newsSurvHits (b : Backend) (q : String) : List Hit := firstOccur (rawNews b q) []

/-- Seen keys after the web phase. -/
def webSeen (b : Backend) (q : String) : List String :=
  seenAfter (rawWeb b q) (newsSeen b q)

/-- Web hits surviving dedup against the shared seen set. -/
def webSurvHits (b : Backend) (q : String) : List Hit :=
  firstOccur (rawWeb b q) (newsSeen b q)

/-- Year-phase hits surviving dedup; empty when the phase is not triggered. -/
def yearSurvHits (b : Backend) (q : String) (y : Nat) : List Hit :=
  if yearTriggered b q y then firstOccur (rawYear b q y) (webSeen b q) else []

/-- The output elements contributed by the news phase: the header (iff the
raw result list is non-empty) followed by the surviving formatted lines. -/
def newsElems (b : Backend) (q : String) : List String :=
  if rawNews b q = [] then [] else newsHeader :: (newsSurvHits b q).map formatNews

/-- The output elements contributed by the web phase. -/
def webElems (b : Backend) (q : String) : List String :=
  if rawWeb b q = [] then [] else webHeader :: (webSurvHits b q).map formatWeb

/-- The output elements contributed by the year-qualified phase. -/
def yearElems (b : Backend) (q : String) (y : Nat) : List String :=
  if yearTriggered b q y = true ∧ rawYear b q y ≠ [] then
    yearHeader y :: (yearSurvHits b q y).map formatYear
  else []

/-- All hits fed to the dedup filter, in phase order. -/
def processedHits (b : Backend) (q : String) (y : Nat) : List Hit :=
  rawNews b q ++ rawWeb b q ++ (if yearTriggered b q y then rawYear b q y else [])

/-- All surviving hits, in phase order. -/
def allSurvHits (b : Backend) (q : String) (y : Nat) : List Hit :=
  newsSurvHits b q ++ webSurvHits b q ++ yearSurvHits b q y

/-! ### Basic lemmas about the dedup loop -/

theorem phaseLoop_eq (fmt : Hit → String) (hits : List Hit) :
    ∀ out seen, phaseLoop fmt hits (out, seen) =
      (out ++ (firstOccur hits seen).map fmt, seenAfter hits seen) := by
  induction hits with
  | nil => intro out seen; simp [phaseLoop, firstOccur, seenAfter]
  | cons h rest ih =>
    intro out seen
    by_cases hk : dedupKey h ∈ seen
    · simp [phaseLoop, firstOccur, seenAfter, hk, ih]
    · simp [phaseLoop, firstOccur, seenAfter, hk, ih]

theorem firstOccur_append (xs ys : List Hit) :
    ∀ seen, firstOccur (xs ++ ys) seen =
      firstOccur xs seen ++ firstOccur ys (seenAfter xs seen) := by
  induction xs with
  | nil => intro seen; simp [firstOccur, seenAfter]
  | cons h rest ih =>
    intro seen
    by_cases hk : dedupKey h ∈ seen
    · simp [firstOccur, seenAfter, hk, ih]
    · simp [firstOccur, seenAfter, hk, ih]

theorem seenAfter_append (xs ys : List Hit) :
    ∀ seen, seenAfter (xs ++ ys) seen = seenAfter ys (seenAfter xs seen) := by
  induction xs with
  | nil => intro seen; simp [seenAfter]
  | cons h rest ih =>
    intro seen
    by_cases hk : dedupKey h ∈ seen
    · simp [seenAfter, hk, ih]
    · simp [seenAfter, hk, ih]

/-- Keys already seen stay seen. -/
theorem mem_seenAfter_of_mem (hits : List Hit) :
    ∀ seen k, k ∈ seen → k ∈ seenAfter hits seen := by
  induction hits with
  | nil => intro seen k hk; simpa [seenAfter] using hk
  | cons h rest ih =>
    intro seen k hk
    by_cases hm : dedupKey h ∈ seen
    · simpa [seenAfter, hm] using ih seen k hk
    · exact by simpa [seenAfter, hm] using ih (dedupKey h :: seen) k (List.mem_cons_of_mem _ hk)

/-- Every survivor's key ends up in the seen set. -/
theorem survKey_mem_seenAfter (hits : List Hit) :
    ∀ seen k, k ∈ (firstOccur hits seen).map dedupKey → k ∈ seenAfter hits seen := by
  induction hits with
  | nil => intro seen k hk; simp [firstOccur] at hk
  | cons h rest ih =>
    intro seen k hk
    by_cases hm : dedupKey h ∈ seen
    · have hfo : firstOccur (h :: rest) seen = firstOccur rest seen := by
        simp [firstOccur, hm]
      rw [hfo] at hk
      simpa [seenAfter, hm] using ih seen k hk
    · have hfo : firstOccur (h :: rest) seen = h :: firstOccur rest (dedupKey h :: seen) := by
        simp [firstOccur, hm]
      rw [hfo, List.map_cons, List.mem_cons] at hk
      rcases hk with hk | hk
      · subst hk
        simpa [seenAfter, hm] using
          mem_seenAfter_of_mem rest (dedupKey h :: seen) (dedupKey h) (List.mem_cons_self _ _)
      · simpa [seenAfter, hm] using ih (dedupKey h :: seen) k hk

/-- The surviving keys are pairwise distinct and all fresh with respect to
the incoming seen set. -/
theorem firstOccur_keys_nodup (hits : List Hit) :
    ∀ seen, ((firstOccur hits seen).map dedupKey).Nodup ∧
      ∀ k ∈ (firstOccur hits seen).map dedupKey, k ∉ seen := by
  induction hits with
  | nil => intro seen; simp [firstOccur]
  | cons h rest ih =>
    intro seen
    by_cases hm : dedupKey h ∈ seen
    · refine ⟨?_, ?_⟩
      · simpa [firstOccur, hm] using (ih seen).1
      · intro k hk; exact (ih seen).2 k (by simpa [firstOccur, hm] using hk)
    · have ihr := ih (dedupKey h :: seen)
      have hfo : firstOccur (h :: rest) seen = h :: firstOccur rest (dedupKey h :: seen) := by
        simp [firstOccur, hm]
      refine ⟨?_, ?_⟩
      · rw [hfo, List.map_cons, List.nodup_cons]
        refine ⟨?_, ihr.1⟩
        intro hcon
        exact (ihr.2 (dedupKey h) hcon) (List.mem_cons_self _ _)
      · intro k hk
        rw [hfo, List.map_cons, List.mem_cons] at hk
        rcases hk with hk | hk
        · subst hk; exact hm
        · intro hks
          exact (ihr.2 k hk) (List.mem_cons_of_mem _ hks)

/-- If nothing survives, every processed key was already seen; with an empty
seen set this forces the processed list itself to be empty. -/
theorem firstOccur_nil_of_empty (hits : List Hit)
    (h : firstOccur hits [] = []) : hits = [] := by
  cases hits with
  | nil => rfl
  | cons a rest =>
    exfalso
    simp [firstOccur] at h

/-! ### Decomposing the three-phase state into per-phase section elements -/

theorem newsState_eq (b : Backend) (q : String) :
    newsState b q = (newsElems b q, newsSeen b q) := by
  unfold newsState newsElems newsSurvHits newsSeen rawNews
  cases hc : b.news q 5 with
  | error e => simp [firstOccur, seenAfter]
  | ok rs =>
    by_cases hrs : rs = []
    · simp [hrs, firstOccur, seenAfter]
    · simp [hrs, phaseLoop_eq]

theorem webState_eq (b : Backend) (q : String) :
    webState b q = (newsElems b q ++ webElems b q, webSeen b q) := by
  unfold webState webElems webSurvHits webSeen rawWeb
  cases hc : b.text q 5 with
  | error e => simp [newsState_eq, firstOccur, seenAfter]
  | ok rs =>
    by_cases hrs : rs = []
    · simp [hrs, newsState_eq, firstOccur, seenAfter]
    · simp [hrs, newsState_eq, phaseLoop_eq]

theorem finalState_fst_eq (b : Backend) (q : String) (y : Nat) :
    (finalState b q y).1 = newsElems b q ++ webElems b q ++ yearElems b q y := by
  unfold finalState yearElems yearSurvHits rawYear
  by_cases htr : yearTriggered b q y
  · cases hc : b.news (yearQuery q y) 3 with
    | error e => simp [htr, webState_eq]
    | ok rs =>
      by_cases hrs : rs = []
      · simp [htr, hrs, webState_eq]
      · simp [htr, hrs, webState_eq, phaseLoop_eq, webSeen]
  · simp [htr, webState_eq]

theorem finalState_snd_eq (b : Backend) (q : String) (y : Nat) :
    (finalState b q y).2 =
      if yearTriggered b q y then seenAfter (rawYear b q y) (webSeen b q)
      else webSeen b q := by
  unfold finalState rawYear
  by_cases htr : yearTriggered b q y
  · cases hc : b.news (yearQuery q y) 3 with
    | error e => simp [htr, webState_eq, seenAfter]
    | ok rs =>
      by_cases hrs : rs = []
      · simp [htr, hrs, webState_eq, seenAfter]
      · simp [htr, hrs, webState_eq, phaseLoop_eq]
  · simp [htr, webState_eq]

/-! ### Lemmas about the joined digest string -/

theorem string_data_append (s t : String) : (s ++ t).data = s.data ++ t.data := by
  cases s; cases t; rfl

theorem joinSep_head_data (sep : String) (x : String) (xs : List String) :
    ∃ t : String, joinSep sep (x :: xs) = x ++ t := by
  cases xs with
  | nil =>
    refine ⟨"", ?_⟩
    apply String.ext
    simp [joinSep, string_data_append]
  | cons y ys =>
    refine ⟨sep ++ joinSep sep (y :: ys), ?_⟩
    apply String.ext
    simp [joinSep, string_data_append]

/-- Two strings whose character data start differently are different. -/
theorem string_ne_of_head_ne (s t : String)
    (h : s.data.head? ≠ t.data.head?) : s ≠ t := by
  intro he; exact h (by rw [he])

theorem head_append_left (l1 l2 : List Char) (c : Char)
    (h : l1.head? = some c) : (l1 ++ l2).head? = some c := by
  cases l1 with
  | nil => simp at h
  | cons a t => simpa using h

theorem newsHeader_head : newsHeader.data.head? = some '=' := rfl

theorem webHeader_head : webHeader.data.head? = some '\n' := rfl

theorem yearHeader_head (y : Nat) : (yearHeader y).data.head? = some '\n' := rfl

theorem notFoundMsg_head (q : String) : (notFoundMsg q).data.head? = some 'N' := rfl

theorem searchErrMsg_head (e : String) : (searchErrMsg e).data.head? = some 'S' := rfl

/-- When the output list is non-empty, its first element is one of the three
section headers, whose first character is `=` or a newline. -/
theorem finalState_head (b : Backend) (q : String) (y : Nat)
    (hne : (finalState b q y).1 ≠ []) :
    ∃ hd rest, (finalState b q y).1 = hd :: rest ∧
      (hd.data.head? = some '=' ∨ hd.data.head? = some '\n') := by
  rw [finalState_fst_eq] at hne ⊢
  by_cases hn : rawNews b q = []
  · by_cases hw : rawWeb b q = []
    · have hy : yearElems b q y ≠ [] := by
        simpa [newsElems, webElems, hn, hw] using hne
      have : yearTriggered b q y = true ∧ rawYear b q y ≠ [] := by
        by_contra hcon
        exact hy (by simp [yearElems, hcon])
      refine ⟨yearHeader y, (yearSurvHits b q y).map formatYear, ?_, Or.inr (yearHeader_head y)⟩
      simp [newsElems, webElems, yearElems, hn, hw, this]
    · refine ⟨webHeader, (webSurvHits b q).map formatWeb ++ yearElems b q y, ?_, Or.inr webHeader_head⟩
      simp [newsElems, webElems, hn, hw]
  · refine ⟨newsHeader,
      (newsSurvHits b q).map formatNews ++ webElems b q ++ yearElems b q y, ?_,
      Or.inl newsHeader_head⟩
    simp [newsElems, hn]

theorem search_web_construct_err (b : Backend) (q : String) (y : Nat) (e : String)
    (h : b.constructErr = some e) : search_web b q y = searchErrMsg e := by
  simp [search_web, h]

theorem search_web_of_empty (b : Backend) (q : String) (y : Nat)
    (hc : b.constructErr = none) (h0 : (finalState b q y).1 = []) :
    search_web b q y = notFoundMsg q := by
  simp [search_web, hc, h0]

theorem search_web_of_nonempty (b : Backend) (q : String) (y : Nat)
    (hc : b.constructErr = none) (h0 : (finalState b q y).1 ≠ []) :
    search_web b q y = joinSep "\n\n" (finalState b q y).1 := by
  simp [search_web, hc, h0]

/-- A non-empty digest starts with a section header, hence is never the
not-found message. -/
theorem search_web_ne_notFound_of_nonempty (b : Backend) (q q2 : String) (y : Nat)
    (hc : b.constructErr = none) (h0 : (finalState b q y).1 ≠ []) :
    search_web b q y ≠ notFoundMsg q2 := by
  obtain ⟨hd, rest, hlist, hhead⟩ := finalState_head b q y h0
  rw [search_web_of_nonempty b q y hc h0, hlist]
  obtain ⟨t, ht⟩ := joinSep_head_data "\n\n" hd rest
  rw [ht]
  apply string_ne_of_head_ne
  rw [string_data_append, notFoundMsg_head]
  rcases hhead with hh | hh <;> rw [head_append_left _ _ _ hh] <;> decide

/-! ### Substring lemmas for the containment facts -/

theorem leadsWith_append (p t : List Char) : leadsWith p (p ++ t) = true := by
  induction p with
  | nil => simp [leadsWith]
  | cons a as ih => simp [leadsWith, ih]

theorem containsSeq_append (pre p suf : List Char) :
    containsSeq p (pre ++ p ++ suf) = true := by
  induction pre with
  | nil =>
    simp only [List.nil_append]
    cases hps : p ++ suf with
    | nil =>
      have hp : p = [] := (List.append_eq_nil.mp hps).1
      rw [hp]
      rfl
    | cons c r =>
      have hl : leadsWith p (c :: r) = true := by
        rw [← hps]; exact leadsWith_append p suf
      simp [containsSeq, hl]
  | cons a pre2 ih =>
    have h2 : containsSeq p (a :: (pre2 ++ p ++ suf)) = true := by
      simp only [containsSeq, ih, Bool.or_true]
    simpa using h2

/-- The error string contains the exception description. -/
theorem searchErrMsg_contains (e : String) : strContains (searchErrMsg e) e = true := by
  unfold strContains searchErrMsg
  rw [string_data_append, string_data_append]
  exact containsSeq_append _ _ _

/-! ### Bool bridging for the year trigger -/

theorem all_not_eq_not_any (l : List String) (p : String → Bool) :
    (l.all fun r => !p r) = !(l.any p) := by
  induction l with
  | nil => simp
  | cons a t ih => simp [ih, Bool.not_or]

/-! ### Outcome characterizations -/

/-- A backend call outcome that contributes no hits: it raised or returned
the empty list. -/
def emptyOutcome : Except Unit (List Hit) → Bool
  | Except.ok [] => true
  | Except.ok (_ :: _) => false
  | Except.error _ => true

theorem rawNews_nil_iff (b : Backend) (q : String) :
    rawNews b q = [] ↔ emptyOutcome (b.news q 5) = true := by
  cases hc : b.news q 5 with
  | error e => simp [rawNews, hc, emptyOutcome]
  | ok rs => cases rs <;> simp [rawNews, hc, emptyOutcome]

theorem rawWeb_nil_iff (b : Backend) (q : String) :
    rawWeb b q = [] ↔ emptyOutcome (b.text q 5) = true := by
  cases hc : b.text q 5 with
  | error e => simp [rawWeb, hc, emptyOutcome]
  | ok rs => cases rs <;> simp [rawWeb, hc, emptyOutcome]

theorem rawYear_nil_iff (b : Backend) (q : String) (y : Nat) :
    rawYear b q y = [] ↔ emptyOutcome (b.news (yearQuery q y) 3) = true := by
  cases hc : b.news (yearQuery q y) 3 with
  | error e => simp [rawYear, hc, emptyOutcome]
  | ok rs => cases rs <;> simp [rawYear, hc, emptyOutcome]

theorem newsElems_nil_iff (b : Backend) (q : String) :
    newsElems b q = [] ↔ rawNews b q = [] := by
  by_cases h : rawNews b q = [] <;> simp [newsElems, h]

theorem webElems_nil_iff (b : Backend) (q : String) :
    webElems b q = [] ↔ rawWeb b q = [] := by
  by_cases h : rawWeb b q = [] <;> simp [webElems, h]

theorem yearElems_nil_iff (b : Backend) (q : String) (y : Nat) :
    yearElems b q y = [] ↔ ¬(yearTriggered b q y = true ∧ rawYear b q y ≠ []) := by
  by_cases h : yearTriggered b q y = true ∧ rawYear b q y ≠ [] <;> simp [yearElems, h]

/-! ### Congruence lemmas: `search_web` only consults the three call sites -/

theorem newsState_congr (b b2 : Backend) (q : String)
    (h : b.news q 5 = b2.news q 5) : newsState b q = newsState b2 q := by
  unfold newsState; rw [h]

theorem webState_congr (b b2 : Backend) (q : String)
    (hn : newsState b q = newsState b2 q) (ht : b.text q 5 = b2.text q 5) :
    webState b q = webState b2 q := by
  unfold webState; rw [ht, hn]

theorem finalState_congr (b b2 : Backend) (q : String) (y : Nat)
    (hw : webState b q = webState b2 q)
    (hy : b.news (yearQuery q y) 3 = b2.news (yearQuery q y) 3) :
    finalState b q y = finalState b2 q y := by
  unfold finalState yearTriggered; rw [hw, hy]

theorem search_web_congr (b b2 : Backend) (q : String) (y : Nat)
    (hc : b.constructErr = b2.constructErr)
    (hf : finalState b q y = finalState b2 q y) :
    search_web b q y = search_web b2 q y := by
  unfold search_web; rw [hc, hf]

theorem newsState_of_err (b : Backend) (q : String)
    (h : b.news q 5 = Except.error ()) : newsState b q = ([], []) := by
  simp [newsState, h]

theorem newsState_of_nil (b : Backend) (q : String)
    (h : b.news q 5 = Except.ok []) : newsState b q = ([], []) := by
  simp [newsState, h]

theorem webState_of_err (b : Backend) (q : String)
    (h : b.text q 5 = Except.error ()) : webState b q = newsState b q := by
  simp [webState, h]

theorem webState_of_nil (b : Backend) (q : String)
    (h : b.text q 5 = Except.ok []) : webState b q = newsState b q := by
  simp [webState, h]

theorem finalState_of_yearErr (b : Backend) (q : String) (y : Nat)
    (h : b.news (yearQuery q y) 3 = Except.error ()) :
    finalState b q y = webState b q := by
  unfold finalState; rw [h]; split <;> rfl

theorem finalState_of_yearNil (b : Backend) (q : String) (y : Nat)
    (h : b.news (yearQuery q y) 3 = Except.ok []) :
    finalState b q y = webState b q := by
  unfold finalState; rw [h]; split <;> simp

/-! ### Concrete backends used by the witnesses -/

/-- A backend whose every call succeeds with zero hits. -/
def bEmpty : Backend := ⟨none, fun _ _ => Except.ok [], fun _ _ => Except.ok []⟩

/-- A backend whose construction (`DDGS()`) raises. -/
def bBoom : Backend := ⟨some "boom", fun _ _ => Except.ok [], fun _ _ => Except.ok []⟩

/-- A news hit whose formatted line mentions the year 2024 through its date. -/
def ymHit : Hit := ⟨"YT", "ybody", "", "YS", some "2024-05-06"⟩

/-- A backend returning one news hit that mentions 2024 and nothing else. -/
def bYm : Backend :=
  ⟨none, fun _ n => if n = 5 then Except.ok [ymHit] else Except.ok [], fun _ _ => Except.ok []⟩

/-- A lone web hit. -/
def w5Hit : Hit := ⟨"W5", "w5 body", "http://w5", "", none⟩

/-- A backend whose news phase raises and whose web phase returns one hit. -/
def bPhaseErr : Backend :=
  ⟨none, fun _ n => if n = 5 then Except.error () else Except.ok [],
    fun _ _ => Except.ok [w5Hit]⟩

/-- Like `bPhaseErr` but the news phase returns zero hits instead of raising. -/
def bPhaseNil : Backend :=
  ⟨none, fun _ _ => Except.ok [], fun _ _ => Except.ok [w5Hit]⟩

/-- Hits used by the C8 witness. -/
def wHitSome : Hit := ⟨"t", "b", "", "s", some "2025-01-02T03:04"⟩

/-- A hit with no date. -/
def wHitNone : Hit := ⟨"t", "b", "", "s", none⟩

/-! ### Claims -/

/-- Claim C8: in every formatted hit line, a present date field is truncated
to at most its first 10 characters, and an absent date renders as the empty
string, never as a placeholder such as "None"; news hits are formatted as
`"[date] (source) title\nbody"` and year-qualified hits as
`"[date] title\nbody"`. -/
theorem claim_C8 (h : Hit) (d : String) :
    (dateStr h).length ≤ 10 ∧
    (h.date = none → dateStr h = "") ∧
    (h.date = some d → dateStr h = strTake d 10) ∧
    formatNews h = "[" ++ dateStr h ++ "] (" ++ h.source ++ ") " ++ h.title ++ "\n" ++ h.body ∧
    formatYear h = "[" ++ dateStr h ++ "] " ++ h.title ++ "\n" ++ h.body := by
  refine ⟨?_, ?_, ?_, rfl, rfl⟩
  · cases hd : h.date with
    | none => simp [dateStr, hd]
    | some d2 =>
      by_cases hde : d2 = ""
      · simp [dateStr, hd, hde]
      · simp only [dateStr, hd, hde, if_neg]
        show (d2.data.take 10).length ≤ 10
        rw [List.length_take]
        exact Nat.min_le_left _ _
  · intro hd; simp [dateStr, hd]
  · intro hd
    by_cases hde : d = ""
    · subst hde
      simp [dateStr, hd]
      apply String.ext
      simp [strTake]
    · simp [dateStr, hd, hde]

/-- Witness for C8 at concrete hits: a 16-character date renders as its
10-character prefix and an absent date renders empty. -/
theorem claim_C8_witness :
    wHitSome.date = some "2025-01-02T03:04" ∧
    dateStr wHitSome = strTake "2025-01-02T03:04" 10 ∧
    wHitNone.date = none ∧
    dateStr wHitNone = "" :=
  ⟨rfl, (claim_C8 wHitSome "2025-01-02T03:04").2.2.1 rfl, rfl,
    (claim_C8 wHitNone "").2.1 rfl⟩

/-- Claim C4: `search_web` is a total function into strings (never raises);
when the aggregator-level `DDGS()` construction fails with description `e`,
the result is the fixed error message containing `e`, which is never the
not-found message; and even when every phase call raises, the function
still returns normally. -/
theorem claim_C4 (b : Backend) (q : String) (y : Nat) (e : String) :
    (b.constructErr = some e →
      search_web b q y = searchErrMsg e ∧
      strContains (search_web b q y) e = true ∧
      search_web b q y ≠ notFoundMsg q) ∧
    (b.constructErr = none → b.news q 5 = Except.error () → b.text q 5 = Except.error () →
      b.news (yearQuery q y) 3 = Except.error () → search_web b q y = notFoundMsg q) := by
  constructor
  · intro h
    have he : search_web b q y = searchErrMsg e := search_web_construct_err b q y e h
    refine ⟨he, ?_, ?_⟩
    · rw [he]; exact searchErrMsg_contains e
    · rw [he]
      apply string_ne_of_head_ne
      rw [searchErrMsg_head, notFoundMsg_head]
      decide
  · intro hc h1 h2 h3
    apply search_web_of_empty b q y hc
    rw [finalState_fst_eq]
    have hrn : rawNews b q = [] := by simp [rawNews, h1]
    have hrw : rawWeb b q = [] := by simp [rawWeb, h2]
    have hry : rawYear b q y = [] := by simp [rawYear, h3]
    simp [newsElems, webElems, yearElems, hrn, hrw, hry]

/-- Witness for C4: a backend whose construction raises with description
"boom" yields the error string, and an all-raising backend still returns. -/
theorem claim_C4_witness :
    bBoom.constructErr = some "boom" ∧
    (search_web bBoom "x" 2025 = searchErrMsg "boom" ∧
      strContains (search_web bBoom "x" 2025) "boom" = true ∧
      search_web bBoom "x" 2025 ≠ notFoundMsg "x") :=
  ⟨rfl, (claim_C4 bBoom "x" 2025 "boom").1 rfl⟩

/-- Claim C2: the year-qualified retry call (news on `query ++ " " ++ year`,
up to 3 results) is issued if and only if, after the news and web phases,
none of the already-produced output elements contains the decimal digit
string of the current year. -/
theorem claim_C2 (b : Backend) (q : String) (y : Nat) (hc : b.constructErr = none) :
    Call.news (yearQuery q y) 3 ∈ searchCalls b q y ↔
      ((webState b q).1.all fun r => !strContains r (toString y)) = true := by
  have hall : ((webState b q).1.all fun r => !strContains r (toString y)) =
      yearTriggered b q y := by
    rw [all_not_eq_not_any]; rfl
  rw [hall]
  by_cases htr : yearTriggered b q y = true
  · simp [searchCalls, hc, htr]
  · simp [searchCalls, hc, htr]

/-- Witness for C2: a backend whose news hit mentions 2024 never gets the
year-qualified call. -/
theorem claim_C2_witness :
    bYm.constructErr = none ∧
    (Call.news (yearQuery "q" 2024) 3 ∈ searchCalls bYm "q" 2024 ↔
      ((webState bYm "q").1.all fun r => !strContains r (toString 2024)) = true) :=
  ⟨rfl, claim_C2 bYm "q" 2024 rfl⟩

/-- Claim C9: the non-empty-query precondition is not enforced: for every
query string, including the empty or whitespace-only string, the news and
web calls are always issued with the query passed through verbatim, and if
every call yields zero hits the result is the not-found message quoting the
(possibly empty) query. -/
theorem claim_C9 (b : Backend) (q : String) (y : Nat) (hc : b.constructErr = none) :
    Call.news q 5 ∈ searchCalls b q y ∧ Call.text q 5 ∈ searchCalls b q y ∧
    (b.news q 5 = Except.ok [] → b.text q 5 = Except.ok [] →
      b.news (yearQuery q y) 3 = Except.ok [] → search_web b q y = notFoundMsg q) := by
  refine ⟨by simp [searchCalls, hc], by simp [searchCalls, hc], ?_⟩
  intro h1 h2 h3
  apply search_web_of_empty b q y hc
  rw [finalState_fst_eq]
  have hrn : rawNews b q = [] := by simp [rawNews, h1]
  have hrw : rawWeb b q = [] := by simp [rawWeb, h2]
  have hry : rawYear b q y = [] := by simp [rawYear, h3]
  simp [newsElems, webElems, yearElems, hrn, hrw, hry]

/-- Witness for C9 at the empty and at a whitespace-only query. -/
theorem claim_C9_witness :
    bEmpty.constructErr = none ∧
    Call.news "" 5 ∈ searchCalls bEmpty "" 2027 ∧
    search_web bEmpty "" 2027 = notFoundMsg "" ∧
    search_web bEmpty "   " 2027 = notFoundMsg "   " :=
  ⟨rfl, (claim_C9 bEmpty "" 2027 rfl).1,
    (claim_C9 bEmpty "" 2027 rfl).2.2 rfl rfl rfl,
    (claim_C9 bEmpty "   " 2027 rfl).2.2 rfl rfl rfl⟩

/-- Claim C3: if all three phases produce zero surviving (non-duplicate)
hits, `search_web` returns exactly the fixed not-found message with the
original query echoed verbatim. -/
theorem claim_C3 (b : Backend) (q : String) (y : Nat)
    (hc : b.constructErr = none)
    (hn : newsSurvHits b q = []) (hw : webSurvHits b q = [])
    (hy : yearSurvHits b q y = []) :
    search_web b q y = notFoundMsg q := by
  have hrn : rawNews b q = [] := firstOccur_nil_of_empty _ hn
  have hseenN : newsSeen b q = [] := by simp [newsSeen, hrn, seenAfter]
  have hw2 : firstOccur (rawWeb b q) [] = [] := by
    unfold webSurvHits at hw
    rw [hseenN] at hw
    exact hw
  have hrw : rawWeb b q = [] := firstOccur_nil_of_empty _ hw2
  have hseenW : webSeen b q = [] := by simp [webSeen, hrw, hseenN, seenAfter]
  have hws : (webState b q).1 = [] := by
    rw [webState_eq]
    simp [newsElems, webElems, hrn, hrw]
  have htr : yearTriggered b q y = true := by
    simp [yearTriggered, hws]
  have hy2 : firstOccur (rawYear b q y) [] = [] := by
    unfold yearSurvHits at hy
    rw [htr] at hy
    simp only [if_true] at hy
    rw [hseenW] at hy
    exact hy
  have hry : rawYear b q y = [] := firstOccur_nil_of_empty _ hy2
  apply search_web_of_empty b q y hc
  rw [finalState_fst_eq]
  simp [newsElems, webElems, yearElems, hrn, hrw, hry]

/-- Witness for C3: the all-empty backend yields the not-found message. -/
theorem claim_C3_witness :
    bEmpty.constructErr = none ∧
    newsSurvHits bEmpty "alpha" = [] ∧
    webSurvHits bEmpty "alpha" = [] ∧
    yearSurvHits bEmpty "alpha" 2030 = [] ∧
    search_web bEmpty "alpha" 2030 = notFoundMsg "alpha" :=
  ⟨rfl, rfl, rfl, rfl, claim_C3 bEmpty "alpha" 2030 rfl rfl rfl rfl⟩

/-- Claim C5: a backend error raised in exactly one phase is swallowed and
treated as zero hits for that phase: replacing that phase's raised error by
an empty result list, while keeping the other two calls identical, leaves
the returned digest unchanged, so the healthy phases' output is unaffected
and `search_web` still returns normally. -/
theorem claim_C5 (b b2 : Backend) (q : String) (y : Nat)
    (hc : b.constructErr = none) (hc2 : b2.constructErr = none) :
    ((b.news q 5 = Except.error () ∧ b2.news q 5 = Except.ok [] ∧
      b.text q 5 = b2.text q 5 ∧
      b.news (yearQuery q y) 3 = b2.news (yearQuery q y) 3) →
        search_web b q y = search_web b2 q y) ∧
    ((b.text q 5 = Except.error () ∧ b2.text q 5 = Except.ok [] ∧
      b.news q 5 = b2.news q 5 ∧
      b.news (yearQuery q y) 3 = b2.news (yearQuery q y) 3) →
        search_web b q y = search_web b2 q y) ∧
    ((b.news (yearQuery q y) 3 = Except.error () ∧
      b2.news (yearQuery q y) 3 = Except.ok [] ∧
      b.news q 5 = b2.news q 5 ∧ b.text q 5 = b2.text q 5) →
        search_web b q y = search_web b2 q y) := by
  have hcc : b.constructErr = b2.constructErr := by rw [hc, hc2]
  refine ⟨?_, ?_, ?_⟩
  · rintro ⟨h1, h2, h3, h4⟩
    have hns : newsState b q = newsState b2 q := by
      rw [newsState_of_err b q h1, newsState_of_nil b2 q h2]
    exact search_web_congr b b2 q y hcc
      (finalState_congr b b2 q y (webState_congr b b2 q hns h3) h4)
  · rintro ⟨h1, h2, h3, h4⟩
    have hns : newsState b q = newsState b2 q := newsState_congr b b2 q h3
    have hws : webState b q = webState b2 q := by
      rw [webState_of_err b q h1, webState_of_nil b2 q h2]
      exact hns
    exact search_web_congr b b2 q y hcc (finalState_congr b b2 q y hws h4)
  · rintro ⟨h1, h2, h3, h4⟩
    have hws : webState b q = webState b2 q :=
      webState_congr b b2 q (newsState_congr b b2 q h3) h4
    have hfs : finalState b q y = finalState b2 q y := by
      rw [finalState_of_yearErr b q y h1, finalState_of_yearNil b2 q y h2]
      exact hws
    exact search_web_congr b b2 q y hcc hfs

/-- Witness for C5: a news-phase error produces the same digest as a
news-phase empty result, with the web hit intact. -/
theorem claim_C5_witness :
    bPhaseErr.constructErr = none ∧
    bPhaseErr.news "q" 5 = Except.error () ∧
    bPhaseNil.news "q" 5 = Except.ok [] ∧
    bPhaseErr.text "q" 5 = bPhaseNil.text "q" 5 ∧
    bPhaseErr.news (yearQuery "q" 2026) 3 = bPhaseNil.news (yearQuery "q" 2026) 3 ∧
    search_web bPhaseErr "q" 2026 = search_web bPhaseNil "q" 2026 :=
  ⟨rfl, rfl, rfl, rfl, rfl,
    (claim_C5 bPhaseErr bPhaseNil "q" 2026 rfl rfl).1 ⟨rfl, rfl, rfl, rfl⟩⟩

/-- Claim C10: with a healthy `DDGS()`, the not-found message is returned
if and only if every one of the three backend calls raises or returns an
empty list; whenever any call returns at least one hit, the phase's header
makes the output non-empty (even if every individual hit is suppressed as a
duplicate), so the not-found message is not returned. -/
theorem claim_C10 (b : Backend) (q : String) (y : Nat)
    (hc : b.constructErr = none) :
    search_web b q y = notFoundMsg q ↔
      (emptyOutcome (b.news q 5) = true ∧ emptyOutcome (b.text q 5) = true ∧
        emptyOutcome (b.news (yearQuery q y) 3) = true) := by
  constructor
  · intro hres
    by_cases hne : (finalState b q y).1 = []
    · rw [finalState_fst_eq] at hne
      have h12 : newsElems b q ++ webElems b q = [] ∧ yearElems b q y = [] :=
        List.append_eq_nil.mp hne
      have hn : newsElems b q = [] := (List.append_eq_nil.mp h12.1).1
      have hw : webElems b q = [] := (List.append_eq_nil.mp h12.1).2
      have hrn : rawNews b q = [] := (newsElems_nil_iff b q).mp hn
      have hrw : rawWeb b q = [] := (webElems_nil_iff b q).mp hw
      have hws : (webState b q).1 = [] := by
        rw [webState_eq]; simp [hn, hw]
      have htr : yearTriggered b q y = true := by simp [yearTriggered, hws]
      have hry : rawYear b q y = [] := by
        have h3 := (yearElems_nil_iff b q y).mp h12.2
        by_contra hcon
        exact h3 ⟨htr, hcon⟩
      exact ⟨(rawNews_nil_iff b q).mp hrn, (rawWeb_nil_iff b q).mp hrw,
        (rawYear_nil_iff b q y).mp hry⟩
    · exact absurd hres (search_web_ne_notFound_of_nonempty b q q y hc hne)
  · rintro ⟨h1, h2, h3⟩
    have hrn : rawNews b q = [] := (rawNews_nil_iff b q).mpr h1
    have hrw : rawWeb b q = [] := (rawWeb_nil_iff b q).mpr h2
    have hry : rawYear b q y = [] := (rawYear_nil_iff b q y).mpr h3
    apply search_web_of_empty b q y hc
    rw [finalState_fst_eq]
    simp [newsElems, webElems, yearElems, hrn, hrw, hry]

/-- Witness for C10: for the all-empty backend the equivalence collapses to
the not-found result. -/
theorem claim_C10_witness :
    bEmpty.constructErr = none ∧
    search_web bEmpty "beta" 2028 = notFoundMsg "beta" :=
  ⟨rfl, (claim_C10 bEmpty "beta" 2028 rfl).mpr ⟨rfl, rfl, rfl⟩⟩

/-! ### The combined dedup invariant -/

theorem firstOccur_three (A B C : List Hit) :
    firstOccur (A ++ B ++ C) [] =
      firstOccur A [] ++ firstOccur B (seenAfter A []) ++
        firstOccur C (seenAfter B (seenAfter A [])) := by
  rw [firstOccur_append (A ++ B) C, firstOccur_append A B, seenAfter_append A B]

theorem keys_nodup_three (A B C : List Hit) :
    ((firstOccur A [] ++ firstOccur B (seenAfter A []) ++
      firstOccur C (seenAfter B (seenAfter A []))).map dedupKey).Nodup := by
  have h1 := firstOccur_keys_nodup A []
  have h2 := firstOccur_keys_nodup B (seenAfter A [])
  have h3 := firstOccur_keys_nodup C (seenAfter B (seenAfter A []))
  have s1 := survKey_mem_seenAfter A []
  have s2 := survKey_mem_seenAfter B (seenAfter A [])
  have lift1 : ∀ k, k ∈ seenAfter A [] → k ∈ seenAfter B (seenAfter A []) :=
    fun k hk => mem_seenAfter_of_mem B (seenAfter A []) k hk
  rw [List.map_append, List.map_append, List.append_assoc]
  apply List.Nodup.append h1.1
  · apply List.Nodup.append h2.1 h3.1
    intro k hkW hkY
    exact h3.2 k hkY (s2 k hkW)
  · intro k hkN hk
    have hkseen := s1 k hkN
    rcases List.mem_append.mp hk with hkW | hkY
    · exact h2.2 k hkW hkseen
    · exact h3.2 k hkY (lift1 k hkseen)

/-- Claim C1: across all three phases combined, the surviving hits carry
pairwise distinct dedup keys (so at most one hit line per key appears in
the digest), the survivors are exactly the first occurrence of each key in
phase processing order (news, then web, then year-qualified; later hits
with an already-seen key are suppressed), and the digest's element list is
exactly the three sections built from those survivors. -/
theorem claim_C1 (b : Backend) (q : String) (y : Nat) :
    ((allSurvHits b q y).map dedupKey).Nodup ∧
    allSurvHits b q y = firstOccur (processedHits b q y) [] ∧
    (finalState b q y).1 = newsElems b q ++ webElems b q ++ yearElems b q y := by
  have hall : allSurvHits b q y =
      firstOccur (rawNews b q) [] ++
        firstOccur (rawWeb b q) (seenAfter (rawNews b q) []) ++
        firstOccur (if yearTriggered b q y then rawYear b q y else [])
          (seenAfter (rawWeb b q) (seenAfter (rawNews b q) [])) := by
    unfold allSurvHits newsSurvHits webSurvHits yearSurvHits webSeen newsSeen
    by_cases htr : yearTriggered b q y = true
    · simp [htr]
    · simp [htr, firstOccur]
  refine ⟨?_, ?_, finalState_fst_eq b q y⟩
  · rw [hall]
    exact keys_nodup_three _ _ _
  · rw [hall]
    unfold processedHits
    rw [firstOccur_three]

/-! ### Claim C6: headers versus empty sections -/

/-- A news hit sharing its body with the web hit below. -/
def dupHitNews : Hit := ⟨"A-title", "shared body", "", "S6", some "2024-01-02"⟩

/-- A web hit whose dedup key equals the news hit above. -/
def dupHitWeb : Hit := ⟨"B-title", "shared body", "http://b6", "", none⟩

/-- A backend whose single web hit duplicates its single news hit. -/
def bDup : Backend :=
  ⟨none, fun _ n => if n = 5 then Except.ok [dupHitNews] else Except.ok [],
    fun _ _ => Except.ok [dupHitWeb]⟩

/-- Counterexample to claim C6 as stated: for `bDup` the WEB header appears
in the output although the web section has zero surviving hit lines — the
header is emitted above an empty section. -/
theorem claim_C6_counterexample :
    webHeader ∈ (finalState bDup "q" 77).1 ∧
    webSurvHits bDup "q" = [] ∧
    (finalState bDup "q" 77).1 =
      ["=== RECENT NEWS ===", "[2024-01-02] (S6) A-title\nshared body",
        "\n=== WEB RESULTS ==="] := by
  refine ⟨?_, rfl, rfl⟩
  decide

/-- Claim C6 (amended): a section's header appears iff the phase's raw
backend call returned a non-empty list (for the year phase: and the phase
was triggered).  For the news phase this coincides with the section having
at least one surviving hit, but the web and year headers can sit above an
empty section when every hit of the phase is suppressed as a duplicate. -/
theorem claim_C6_amended (b : Backend) (q : String) (y : Nat) :
    (newsElems b q ≠ [] ↔ rawNews b q ≠ []) ∧
    (webElems b q ≠ [] ↔ rawWeb b q ≠ []) ∧
    (yearElems b q y ≠ [] ↔ (yearTriggered b q y = true ∧ rawYear b q y ≠ [])) ∧
    (rawNews b q ≠ [] →
      newsElems b q = newsHeader :: (newsSurvHits b q).map formatNews ∧
        newsSurvHits b q ≠ []) ∧
    (rawWeb b q ≠ [] → webElems b q = webHeader :: (webSurvHits b q).map formatWeb) ∧
    (yearTriggered b q y = true → rawYear b q y ≠ [] →
      yearElems b q y = yearHeader y :: (yearSurvHits b q y).map formatYear) := by
  refine ⟨not_congr (newsElems_nil_iff b q), not_congr (webElems_nil_iff b q), ?_, ?_, ?_, ?_⟩
  · simp only [ne_eq, yearElems_nil_iff b q y, not_not]
  · intro h
    refine ⟨by simp [newsElems, h], ?_⟩
    cases hr : rawNews b q with
    | nil => exact absurd hr h
    | cons a t => simp [newsSurvHits, hr, firstOccur]
  · intro h; simp [webElems, h]
  · intro h1 h2; simp [yearElems, h1, h2]

/-- Witness for the amended C6 at `bDup`. -/
theorem claim_C6_amended_witness :
    rawNews bDup "q" ≠ [] ∧
    (newsElems bDup "q" = newsHeader :: (newsSurvHits bDup "q").map formatNews ∧
      newsSurvHits bDup "q" ≠ []) :=
  ⟨by decide, (claim_C6_amended bDup "q" 77).2.2.2.1 (by decide)⟩

/-! ### Claim C7: digest assembly -/

/-- The digest assembly exactly as claim C7 words it, stated from the spec
for comparison with `search_web`: the non-empty sections in fixed order
(NEWS, WEB, YEAR-SPECIFIC), each section being its header line followed by
its surviving hit lines joined by blank lines, and each section separated
from the next by exactly one blank line (so headers carry no leading
newline of their own). -/
def specDigestC7 (b : Backend) (q : String) (y : Nat) : String :=
  joinSep "\n\n"
    ((([("=== RECENT NEWS ===", (newsSurvHits b q).map formatNews),
        ("=== WEB RESULTS ===", (webSurvHits b q).map formatWeb),
        ("=== " ++ toString y ++ " SPECIFIC RESULTS ===",
          (yearSurvHits b q y).map formatYear)]).filter
      (fun sec => !sec.2.isEmpty)).map (fun sec => joinSep "\n\n" (sec.1 :: sec.2)))

/-- A news hit distinct from the web hit below. -/
def twoHitNews : Hit := ⟨"Alpha", "first body", "", "SrcX", some "2024-05-06T07:08"⟩

/-- A web hit with its own dedup key. -/
def twoHitWeb : Hit := ⟨"Beta", "second body", "http://w", "", none⟩

/-- A backend returning one news hit and one distinct web hit. -/
def bTwo : Backend :=
  ⟨none, fun _ n => if n = 5 then Except.ok [twoHitNews] else Except.ok [],
    fun _ _ => Except.ok [twoHitWeb]⟩

/-- Counterexample to claim C7 as stated: the actual digest separates the
NEWS and WEB sections by two blank lines (the join blank line plus the
leading newline embedded in the WEB header), not by exactly one. -/
theorem claim_C7_counterexample :
    search_web bTwo "q" 99 ≠ specDigestC7 bTwo "q" 99 ∧
    search_web bTwo "q" 99 =
      "=== RECENT NEWS ===\n\n[2024-05-06] (SrcX) Alpha\nfirst body\n\n\n=== WEB RESULTS ===\n\nBeta\nsecond body\nSource: http://w" ∧
    specDigestC7 bTwo "q" 99 =
      "=== RECENT NEWS ===\n\n[2024-05-06] (SrcX) Alpha\nfirst body\n\n=== WEB RESULTS ===\n\nBeta\nsecond body\nSource: http://w" := by
  refine ⟨?_, rfl, rfl⟩
  decide

/-- Claim C7 (amended): the digest is the list of emitted elements — for
each phase with a non-empty raw result, its header followed by its
surviving hit lines in backend order — concatenated in fixed NEWS, WEB,
YEAR order and joined with one blank line between consecutive elements;
since the WEB and YEAR headers begin with an embedded newline, consecutive
sections end up separated by two blank lines, and a section appears iff its
raw backend list was non-empty (not iff it has surviving hits). -/
theorem claim_C7_amended (b : Backend) (q : String) (y : Nat)
    (hc : b.constructErr = none) (hne : (finalState b q y).1 ≠ []) :
    search_web b q y =
      joinSep "\n\n" (newsElems b q ++ webElems b q ++ yearElems b q y) := by
  rw [search_web_of_nonempty b q y hc hne, finalState_fst_eq]

/-- Witness for the amended C7 at `bTwo`. -/
theorem claim_C7_amended_witness :
    bTwo.constructErr = none ∧
    (finalState bTwo "q" 99).1 ≠ [] ∧
    search_web bTwo "q" 99 =
      joinSep "\n\n" (newsElems bTwo "q" ++ webElems bTwo "q" ++ yearElems bTwo "q" 99) :=
  ⟨rfl, by decide, claim_C7_amended bTwo "q" 99 rfl (by decide)⟩
